import Mathlib

/- Verification development for the SupervisedLearning base class
   (framework/SupervisedLearning/SupervisedLearning.py): a shallow embedding of
   its data-shaping pipeline (array validation, target stacking, feature-matrix
   construction, normalization, train / evaluate / confidence orchestration)
   over rational-valued arrays, together with theorems about the embedded code.

   Conventions of the embedding:
   * numpy numeric arrays carry rational entries (List of rationals per axis);
   * Python exceptions become values of an error type: raiseAnError(IOError, m)
     is PyErr.ioError m, raiseAnError(TypeError, m) is PyErr.typeError m, and
     interpreter-raised exceptions (list.index failure, dict key lookup failure,
     missing attribute, bad numpy indexing or broadcasting) get their own
     constructors;
   * stateful methods are translated as explicit state passing: each method
     returns its Except result together with the post-call instance state;
   * the abstract backend hooks (_train, __evaluateLocal__, __confidenceLocal__)
     are the boundary of the model: a method "succeeds" exactly when the source
     reaches the hook, and the value it would hand to the hook is returned.
     train additionally appends the hook argument to a trainLog field so that
     "the backend hook was invoked" is visible in the state. -/

namespace SL

/-- Python-level error values produced by the embedded methods. -/
inductive PyErr where
  | ioError (msg : String)
  | typeError (msg : String)
  | valueError (msg : String)
  | keyError (key : String)
  | indexError (msg : String)
  | attributeError (name : String)
  deriving Repr, DecidableEq

/-- Model of the Python values that may appear in a training / evaluation
    dictionary: None, a python list, a 1-d or 2-d numpy array of rationals
    (2-d arrays are kept row-major, and are only built with rows of equal
    length), a numpy scalar, or a value of any other type (tracked by the name
    of its type, as the source only ever inspects type names). -/
inductive PyArr where
  | npNone
  | pylist (elems : List PyArr)
  | nd1 (data : List ℚ)
  | nd2 (rows : List (List ℚ))
  | scalar (val : ℚ)
  | other (tyName : String)

/-- Python type name, as produced by type(x).__name__. -/
def PyArr.pyTypeName : PyArr → String
  | .npNone => "NoneType"
  | .pylist _ => "list"
  | .nd1 _ => "ndarray"
  | .nd2 _ => "ndarray"
  | .scalar _ => "float64"
  | .other t => t

/-- Dense numpy arrays of rank 0 to 3 plus the object-dtype arrays numpy
    builds out of ragged or non-numeric input.  d2 and d3 values are only
    constructed with all rows (and planes) of equal length.  The embedded code
    never reads the elements of an object array (every use path errors first),
    so obj1 records only the first-axis length and obj0 records nothing. -/
inductive NDA where
  | d0 (v : ℚ)
  | d1 (x : List ℚ)
  | d2 (x : List (List ℚ))
  | d3 (x : List (List (List ℚ)))
  | obj1 (len : Nat)
  | obj0
  deriving Repr, DecidableEq

/-- Checks whether every element of a python list is a numpy scalar, returning
    the rational contents if so (np.asarray then yields a 1-d array). -/
def allScalarVals : List PyArr → Option (List ℚ)
  | [] => some []
  | .scalar v :: rest => (allScalarVals rest).map (fun l => v :: l)
  | _ => none

/-- Checks whether every element of a python list is a 1-d numpy array,
    returning the rows if so. -/
def allNd1Rows : List PyArr → Option (List (List ℚ))
  | [] => some []
  | .nd1 r :: rest => (allNd1Rows rest).map (fun l => r :: l)
  | _ => none

/-- All rows have the same length. -/
def sameLengths : List (List ℚ) → Bool
  | [] => true
  | r :: rs => rs.all (fun x => x.length == r.length)

/-- np.asarray.  A list of scalars becomes a 1-d array, a list of equal-length
    1-d arrays becomes a 2-d array; ragged or more deeply nested lists are
    modelled as 1-d object arrays (numpy may build deeper object arrays in some
    of those cases; nothing in the verified claims depends on that corner). -/
def PyArr.asarray : PyArr → NDA
  | .npNone => .obj0
  | .nd1 x => .d1 x
  | .nd2 x => .d2 x
  | .scalar v => .d0 v
  | .other _ => .obj0
  | .pylist es =>
    match allScalarVals es with
    | some vs => .d1 vs
    | none =>
      match allNd1Rows es with
      | some rows => if sameLengths rows then .d2 rows else .obj1 es.length
      | none => .obj1 es.length

/-- Shape of a dense array, as a list of axis lengths. -/
def NDA.shape : NDA → List Nat
  | .d0 _ => []
  | .d1 x => [x.length]
  | .d2 x => [x.length, (x.headD []).length]
  | .d3 x => [x.length, (x.headD []).length, ((x.headD []).headD []).length]
  | .obj1 n => [n]
  | .obj0 => []

/-- len() of an array: the length of its first axis; 0-d arrays raise. -/
def NDA.lenFirstAxis : NDA → Except PyErr Nat
  | .d0 _ => .error (.typeError "len() of unsized object")
  | .obj0 => .error (.typeError "len() of unsized object")
  | a => .ok (a.shape.headD 0)

/-- Renders a shape tuple the way str() renders it in Python. -/
def shapeString (s : List Nat) : String :=
  match s with
  | [n] => "(" ++ toString n ++ ",)"
  | _ => "(" ++ String.intercalate ", " (s.map toString) ++ ")"

/-- checkArrayConsistency with the default isDynamic=False.  On list input the
    source returns immediately without recursing, so this function is the base
    case of the dynamic element loop below. -/
def checkArrayConsistencyStatic (a : PyArr) : Bool × String :=
  match a with
  | .npNone => (false, " The object is None, and contains no entries!")
  | .pylist _ => (false, " The list type is allowed for dynamic ROMs only")
  | a =>
    if a.pyTypeName = "ndarray" ∨ a.pyTypeName = "c1darray" then
      if a.asarray.shape.length > 1 then
        (false, " The array must be 1-d. Got shape: " ++ shapeString a.asarray.shape)
      else (true, "")
    else (false, " The object is not a numpy array. Got type: " ++ a.pyTypeName)

/-- Element loop of checkArrayConsistency in the dynamic case: each element is
    validated with the default (non-dynamic) call; the first failure
    short-circuits with an index-qualified message. -/
def checkElemLoop : List PyArr → Nat → Bool × String
  | [], _ => (true, "")
  | e :: rest, cnt =>
    let resp := checkArrayConsistencyStatic e
    if resp.1 then checkElemLoop rest (cnt + 1)
    else (false, " The element number " ++ toString cnt ++
          " is not a consistent array. Error: " ++ resp.2)

/-- SupervisedLearning.checkArrayConsistency(arrayIn, isDynamic). -/
def checkArrayConsistency (a : PyArr) (isDynamic : Bool) : Bool × String :=
  match a with
  | .npNone => (false, " The object is None, and contains no entries!")
  | .pylist es =>
    if isDynamic then checkElemLoop es 0
    else (false, " The list type is allowed for dynamic ROMs only")
  | a => checkArrayConsistencyStatic a

/-- Validity of a single static array, written after the words of the spec
    contract (section 4.1): a one-dimensional numeric array. -/
def specStaticValid (a : PyArr) : Bool :=
  (a.pyTypeName = "ndarray" || a.pyTypeName = "c1darray") &&
    a.asarray.shape.length ≤ 1

/-- Validity per the amended Array Validator contract: None is invalid; in
    dynamic mode a list is valid when every element is a valid static array,
    and a non-list value is validated exactly as in static mode (so a single
    1-d numeric array is also accepted); in static mode a list is invalid. -/
def specArrayValid (a : PyArr) (dynamic : Bool) : Bool :=
  match a, dynamic with
  | .npNone, _ => false
  | .pylist es, true => es.all specStaticValid
  | .pylist _, false => false
  | a, _ => specStaticValid a

/-- Python attribute x.size (number of elements); lists and None have no such
    attribute. -/
def PyArr.sizeAttr : PyArr → Except PyErr Nat
  | .nd1 xs => .ok xs.length
  | .nd2 rs => .ok (rs.length * (rs.headD []).length)
  | .scalar _ => .ok 1
  | _ => .error (.attributeError "size")

/-- Python attribute x.shape; lists and None have no such attribute. -/
def PyArr.shapeAttr : PyArr → Except PyErr (List Nat)
  | .nd1 xs => .ok [xs.length]
  | .nd2 rs => .ok [rs.length, (rs.headD []).length]
  | .scalar _ => .ok []
  | _ => .error (.attributeError "shape")

/-- Python subscript x[0]. -/
def PyArr.item0 : PyArr → Except PyErr PyArr
  | .pylist (e :: _) => .ok e
  | .pylist [] => .error (.indexError "list index out of range")
  | .nd1 (q :: _) => .ok (.scalar q)
  | .nd1 [] => .error (.indexError "index 0 is out of bounds for axis 0 with size 0")
  | .nd2 (r :: _) => .ok (.nd1 r)
  | .nd2 [] => .error (.indexError "index 0 is out of bounds for axis 0 with size 0")
  | .scalar _ => .error (.indexError "invalid index to scalar variable.")
  | .npNone => .error (.typeError "NoneType object is not subscriptable")
  | .other t => .error (.typeError (t ++ " object is not subscriptable"))

/-- Feature matrix in static mode: shape (rows, cols), row-major data.  The
    dims fields record the numpy shape attribute; all constructors below keep
    data consistent with them. -/
structure Mat2 where
  rows : Nat
  cols : Nat
  data : List (List ℚ)
  deriving Repr, DecidableEq

/-- Feature matrix in dynamic mode: shape (dim0, dim1, dim2). -/
structure Mat3 where
  dim0 : Nat
  dim1 : Nat
  dim2 : Nat
  data : List (List (List ℚ))
  deriving Repr, DecidableEq

def zeros2 (r c : Nat) : Mat2 :=
  ⟨r, c, List.replicate r (List.replicate c 0)⟩

def zeros3 (a b c : Nat) : Mat3 :=
  ⟨a, b, c, List.replicate a (List.replicate b (List.replicate c 0))⟩

/-- Assignment m[:, c] = col for a 1-d right-hand side, with numpy broadcast
    semantics: the column length must equal the number of rows, or be 1. -/
def setCol (m : Mat2) (c : Nat) (col : List ℚ) : Except PyErr Mat2 :=
  if col.length = m.rows then
    .ok { m with data := (m.data.zip col).map (fun p => p.1.set c p.2) }
  else if col.length = 1 then
    .ok { m with data := m.data.map (fun row => row.set c (col.headD 0)) }
  else
    .error (.valueError ("could not broadcast input array from shape " ++
      shapeString [col.length] ++ " into shape " ++ shapeString [m.rows]))

/-- Assignment m[:, c] = v for a dense-array right-hand side. -/
def setColNDA (m : Mat2) (c : Nat) (v : NDA) : Except PyErr Mat2 :=
  match v with
  | .d0 q => .ok { m with data := m.data.map (fun row => row.set c q) }
  | .d1 xs => setCol m c xs
  | v => .error (.valueError ("could not broadcast input array from shape " ++
      shapeString v.shape ++ " into shape " ++ shapeString [m.rows]))

/-- Broadcast of a right-hand side array onto a 2-d slice of shape (s, t),
    yielding an element-access function.  Follows the numpy rule after
    aligning shapes on the right: each axis must match or be 1. -/
def broadcastGet2 (v : NDA) (s t : Nat) : Except PyErr (Nat → Nat → ℚ) :=
  match v with
  | .d0 q => .ok (fun _ _ => q)
  | .d1 xs =>
    if xs.length = t then .ok (fun _ j => xs.getD j 0)
    else if xs.length = 1 then .ok (fun _ _ => xs.headD 0)
    else .error (.valueError ("could not broadcast input array from shape " ++
      shapeString [xs.length] ++ " into shape " ++ shapeString [s, t]))
  | .d2 rs =>
    let r := rs.length
    let c := (rs.headD []).length
    if (r = s ∨ r = 1) ∧ (c = t ∨ c = 1) then
      .ok (fun i j => (rs.getD (if r = 1 then 0 else i) []).getD
        (if c = 1 then 0 else j) 0)
    else .error (.valueError ("could not broadcast input array from shape " ++
      shapeString [r, c] ++ " into shape " ++ shapeString [s, t]))
  | v => .error (.valueError ("could not broadcast input array from shape " ++
      shapeString v.shape ++ " into shape " ++ shapeString [s, t]))

/-- Assignment m[:, :, k] = v with broadcast onto the (dim0, dim1) slice. -/
def setSlab (m : Mat3) (k : Nat) (v : NDA) : Except PyErr Mat3 :=
  (broadcastGet2 v m.dim0 m.dim1).map (fun f =>
    { m with data := m.data.mapIdx (fun i plane =>
        plane.mapIdx (fun j row => row.set k (f i j))) })

/-- Assignment m[:, k] = v on a 3-d array (a (dim0, dim2) slice); reachable in
    confidence only when the featureShape attribute is set, which the class
    under verification never does. -/
def setMid (m : Mat3) (k : Nat) (v : PyArr) : Except PyErr Mat3 :=
  (broadcastGet2 v.asarray m.dim0 m.dim2).map (fun f =>
    { m with data := m.data.mapIdx (fun i plane =>
        plane.mapIdx (fun j row =>
          if j = k then (List.range m.dim2).map (f i) else row)) })

/-- Slice valueToUse[:, :]: requires at least two dimensions. -/
def NDA.sliceAll2 : NDA → Except PyErr NDA
  | .d2 x => .ok (.d2 x)
  | .d3 x => .ok (.d3 x)
  | _ => .error (.indexError "too many indices for array")

/-- Slice valueToUse[:, 0] (only invoked on arrays with more than one axis). -/
def NDA.colZero : NDA → Except PyErr NDA
  | .d2 rs =>
    if (rs.headD []).length = 0 then
      .error (.indexError "index 0 is out of bounds for axis 1 with size 0")
    else .ok (.d1 (rs.map (fun r => r.headD 0)))
  | .d3 ps => .ok (.d2 (ps.map (fun p => p.headD [])))
  | _ => .error (.indexError "too many indices for array")

/-- Elementwise (v - mu) / sigma on a dense array.  Arithmetic on object
    arrays is outside the modelled domain and is reported as a type error. -/
def NDA.affine (v : NDA) (mu sigma : ℚ) : Except PyErr NDA :=
  match v with
  | .d0 q => .ok (.d0 ((q - mu) / sigma))
  | .d1 xs => .ok (.d1 (xs.map (fun q => (q - mu) / sigma)))
  | .d2 rs => .ok (.d2 (rs.map (fun r => r.map (fun q => (q - mu) / sigma))))
  | .d3 ps => .ok (.d3 (ps.map (fun p => p.map (fun r => r.map (fun q => (q - mu) / sigma)))))
  | _ => .error (.typeError "unsupported operand types for object array arithmetic")

/-- Python expression (v - mu) / sigma on a raw dictionary value, as written
    in evaluate: numeric numpy operands work elementwise, anything else (list,
    None, foreign type) raises a TypeError. -/
def PyArr.pyAffine (v : PyArr) (mu sigma : ℚ) : Except PyErr NDA :=
  match v with
  | .nd1 xs => .ok (.d1 (xs.map (fun q => (q - mu) / sigma)))
  | .nd2 rs => .ok (.d2 (rs.map (fun r => r.map (fun q => (q - mu) / sigma))))
  | .scalar q => .ok (.d0 ((q - mu) / sigma))
  | v => .error (.typeError ("unsupported operand types for -: " ++
      v.pyTypeName ++ " and float"))

/-- Collects the asarray images of the stack inputs when all are scalars. -/
def allD0 : List NDA → Option (List ℚ)
  | [] => some []
  | .d0 q :: rest => (allD0 rest).map (fun l => q :: l)
  | _ => none

/-- Collects the asarray images of the stack inputs when all are 1-d. -/
def allD1 : List NDA → Option (List (List ℚ))
  | [] => some []
  | .d1 x :: rest => (allD1 rest).map (fun l => x :: l)
  | _ => none

/-- Collects the asarray images of the stack inputs when all are 2-d. -/
def allD2 : List NDA → Option (List (List (List ℚ)))
  | [] => some []
  | .d2 x :: rest => (allD2 rest).map (fun l => x :: l)
  | _ => none

def sameShapes2 : List (List (List ℚ)) → Bool
  | [] => true
  | m :: ms => ms.all (fun x => x.length == m.length &&
      (x.headD []).length == (m.headD []).length)

/-- Stacking T one-dimensional arrays of length n along a new last axis:
    result[i][t] = input_t[i]. -/
def stackD1 (cols : List (List ℚ)) (n : Nat) : List (List ℚ) :=
  (List.range n).map (fun i => cols.map (fun c => c.getD i 0))

/-- Stacking T two-dimensional arrays of shape (r, c) along a new last axis. -/
def stackD2 (mats : List (List (List ℚ))) (r c : Nat) : List (List (List ℚ)) :=
  (List.range r).map (fun i => (List.range c).map (fun j =>
    mats.map (fun m => (m.getD i []).getD j 0)))

/-- np.stack(values, axis=-1).  Inputs are converted with asarray and must all
    have the same shape; stacking of object arrays is outside the modelled
    domain and reported as the same shape error. -/
def npStackLast (vals : List PyArr) : Except PyErr NDA :=
  let arrs := vals.map PyArr.asarray
  match arrs with
  | [] => .error (.valueError "need at least one array to stack")
  | _ =>
    match allD0 arrs with
    | some qs => .ok (.d1 qs)
    | none =>
      match allD1 arrs with
      | some cols =>
        if sameLengths cols then
          .ok (.d2 (stackD1 cols ((cols.headD []).length)))
        else .error (.valueError "all input arrays must have the same shape")
      | none =>
        match allD2 arrs with
        | some ms =>
          if sameShapes2 ms then
            .ok (.d3 (stackD2 ms ((ms.headD []).length)
              (((ms.headD []).headD []).length)))
          else .error (.valueError "all input arrays must have the same shape")
        | none => .error (.valueError "all input arrays must have the same shape")

/-- Argument of train / evaluate / confidence: either a Python dict, modelled
    as an association list with (as for every dict) pairwise distinct keys in
    insertion order, or a value of some other type (tracked by type name), for
    the "needs to be provided through a dictionary" checks. -/
inductive PyInput where
  | dict (entries : List (String × PyArr))
  | notADict (tyName : String)

/-- Feature matrix handed to the backend hooks: 2-d in static mode, 3-d in
    dynamic mode. -/
inductive FeatMat where
  | mat2 (m : Mat2)
  | mat3 (m : Mat3)
  deriving Repr, DecidableEq

def FeatMat.rowCount : FeatMat → Nat
  | .mat2 m => m.rows
  | .mat3 m => m.dim0

/-- Instance state of a configured SupervisedLearning object.  trainLog
    records every delegation to the abstract _train hook (the argument pair it
    was given); featureShape models the attribute read by confidence, which
    __init__ leaves unset (none) and no method of the class ever assigns. -/
structure SLState where
  features : List String
  target : List String
  amITrained : Bool
  dynamicHandling : Bool
  dynamicFeatures : Bool
  muAndSigmaFeatures : List (String × (ℚ × ℚ))
  featureShape : Option (List Nat)
  featureSelectionAlgo : Option String
  trainLog : List (FeatMat × NDA)
  deriving Repr, DecidableEq

/-- SupervisedLearning.isDynamic(): returns self._dynamicHandling. -/
def SLState.isDynamic (st : SLState) : Bool := st.dynamicHandling

/-- Python dict assignment d[k] = v: replaces in place when the key exists,
    appends otherwise. -/
def dictInsert (d : List (String × (ℚ × ℚ))) (k : String) (v : ℚ × ℚ) :
    List (String × (ℚ × ℚ)) :=
  if d.any (fun p => p.1 = k) then
    d.map (fun p => if p.1 = k then (k, v) else p)
  else d ++ [(k, v)]

/-- Value lookup values[names.index(k)] over the dict (names, values): since
    dict keys are pairwise distinct, the first binding of k is the binding of
    k, i.e. association-list lookup. -/
def dictGet (tdict : List (String × PyArr)) (k : String) : Option PyArr :=
  List.lookup k tdict

/-- Target-resolution loop of train (lines 246-251): each declared target is
    looked up in order and the first missing one aborts with the error naming
    it. -/
def resolveTargets (look : String → Option PyArr) : List String → Except PyErr (List PyArr)
  | [] => .ok []
  | t :: rest =>
    match look t with
    | some v => (resolveTargets look rest).map (fun l => v :: l)
    | none => .error (.ioError ("The target " ++ t ++ " is not in the training set"))

/-- One step of the dynamic feature-length loop of train (line 267): the
    expression values[names.index(feat)][0].size.  A feature absent from the
    dict makes names.index raise ValueError (Python quotes the name in the
    message; the quotes are omitted here). -/
def dynFeatOne (look : String → Option PyArr) (feat : String) : Except PyErr Nat :=
  match look feat with
  | none => .error (.valueError (feat ++ " is not in list"))
  | some v =>
    match v.item0 with
    | .error e => .error e
    | .ok e => e.sizeAttr

/-- Dynamic feature-length loop of train (lines 265-267): featLen is the
    maximum of values[names.index(feat)][0].size over the declared features,
    i.e. it only ever inspects the first realization of each feature. -/
def dynFeatLen (look : String → Option PyArr) : List String → Except PyErr Nat
  | [] => .ok 0
  | f :: rest =>
    match dynFeatOne look f with
    | .error e => .error e
    | .ok s =>
      match dynFeatLen look rest with
      | .error e => .error e
      | .ok r => .ok (max s r)

/-- Dead computation at lines 257-263 of train: needFeatures starts as a copy
    of the features, indexMap may append to it, and the result is never used
    afterwards (the append also pushes feat rather than index, as in the
    source). -/
def needFeaturesCalc (features target : List String)
    (indexMap : List (String × List String)) : List String :=
  if indexMap.length ≠ 0 then
    features.foldl (fun acc feat =>
      (((List.lookup feat indexMap).getD []).foldl (fun acc2 index =>
        if index ∉ acc2 ∧ index ∉ target then acc2 ++ [feat] else acc2) acc))
      features
  else features

/-- Checks of one iteration of the feature loop of train (lines 276-283):
    array validation with isDynamic() and the row-count comparison of
    len(np.asarray(value)) against featureValues.shape[0].  Returns the raised
    error, or none when both checks pass. -/
def trainFeatCheck (isDyn : Bool) (feat : String) (v : PyArr) (fv : FeatMat) :
    Option PyErr :=
  let resp := checkArrayConsistency v isDyn
  if resp.1 = false then
    some (.ioError ("In training set for feature " ++ feat ++ ":" ++ resp.2))
  else
    match v.asarray.lenFirstAxis with
    | .error e => some e
    | .ok len =>
      if len ≠ fv.rowCount then
        some (.ioError ("In training set, the number of values provided for feature "
          ++ feat ++ " are != number of target outcomes!"))
      else none

/-- Assignment of one iteration of the feature loop of train (lines 286-289).
    The matrix is 3-d exactly when self.dynamicFeatures was set at allocation
    (lines 264-270), so branching on its rank is the branch on
    self.dynamicFeatures at line 286.  In the dynamic case the right-hand
    side is (value[:, :] - center) / scale assigned into the cnt feature
    slab; in the static case the first column is extracted when the array has
    more than one axis. -/
def trainFeatAssign (musig : ℚ × ℚ) (cnt : Nat) (v : PyArr) :
    FeatMat → Except PyErr FeatMat
  | .mat3 m =>
    match v.asarray.sliceAll2 with
    | .error e => .error e
    | .ok sliced =>
      match sliced.affine musig.1 musig.2 with
      | .error e => .error e
      | .ok nrm =>
        match setSlab m cnt nrm with
        | .error e => .error e
        | .ok m2 => .ok (.mat3 m2)
  | .mat2 m =>
    match (if v.asarray.shape.length > 1 then v.asarray.colZero
           else .ok v.asarray) with
    | .error e => .error e
    | .ok extracted =>
      match extracted.affine musig.1 musig.2 with
      | .error e => .error e
      | .ok nrm =>
        match setColNDA m cnt nrm with
        | .error e => .error e
        | .ok m2 => .ok (.mat2 m2)

/-- Feature loop of train (lines 271-289), processing the declared features in
    declaration order with their column index cnt, threading the
    muAndSigmaFeatures dict (updated by _localNormalizeData before each
    assignment, also on iterations that later fail).  nf models
    mathUtils.normalizationFactors, which lives outside the sources under
    verification; per the spec it fits a (center, scale) pair from the raw
    feature value, with the scale never exactly zero.  The source reads
    muAndSigmaFeatures[feat] immediately after assigning it, which is the pair
    nf just returned. -/
def trainFeatLoop (nf : PyArr → ℚ × ℚ) (look : String → Option PyArr)
    (isDyn : Bool) :
    List String → Nat → List (String × (ℚ × ℚ)) → FeatMat →
    Except PyErr FeatMat × List (String × (ℚ × ℚ))
  | [], _, mus, fv => (.ok fv, mus)
  | feat :: rest, cnt, mus, fv =>
    match look feat with
    | none => (.error (.ioError ("The feature sought " ++ feat ++
        " is not in the training set")), mus)
    | some valueToUse0 =>
      match trainFeatCheck isDyn feat valueToUse0 fv with
      | some e => (.error e, mus)
      | none =>
        let musig := nf valueToUse0
        let mus2 := dictInsert mus feat musig
        match trainFeatAssign musig cnt valueToUse0 fv with
        | .error e => (.error e, mus2)
        | .ok fv2 => trainFeatLoop nf look isDyn rest (cnt + 1) mus2 fv2

/-- Number of kept entries of a mask. -/
def maskCount (mask : List Bool) : Nat := (mask.filter id).length

/-- Keeps the entries of a row whose mask bit is set. -/
def filterByMask (row : List ℚ) (mask : List Bool) : List ℚ :=
  ((row.zip mask).filter (fun p => p.2)).map (fun p => p.1)

/-- featureValues[:, support] and featureValues[:, :, support] (lines
    293-296). -/
def applyMask : FeatMat → List Bool → FeatMat
  | .mat2 m, mask =>
    .mat2 ⟨m.rows, maskCount mask, m.data.map (fun row => filterByMask row mask)⟩
  | .mat3 m, mask =>
    .mat3 ⟨m.dim0, m.dim1, maskCount mask,
      m.data.map (fun plane => plane.map (fun row => filterByMask row mask))⟩

/-- Result handed to the abstract _train hook. -/
structure TrainOut where
  featureValues : FeatMat
  targetValues : NDA
  deriving Repr, DecidableEq

/-- Body of SupervisedLearning.train after the dictionary type check (lines
    243-298).  The training dict enters only through the lookup function
    values[names.index(k)], passed as look.  nf models the external
    mathUtils.normalizationFactors (see trainFeatLoop); rfeSel models the
    external RFE feature selector (FeatureSelection/RFE.py is not among the
    sources under verification): per the spec it returns a keep-mask that is
    applied along the feature axis.  On success the state records the
    delegation to _train in trainLog and sets amITrained; on failure the
    Python exception is returned together with the state as mutated so far
    (muAndSigmaFeatures entries written before the failing feature are kept,
    exactly as in the source). -/
def trainDict (nf : PyArr → ℚ × ℚ) (rfeSel : FeatMat → NDA → List Bool)
    (st : SLState) (look : String → Option PyArr)
    (indexMap : List (String × List String)) :
    Except PyErr TrainOut × SLState :=
    match resolveTargets look st.target with
    | .error e => (.error e, st)
    | .ok targetList =>
      match npStackLast targetList with
      | .error e => (.error e, st)
      | .ok targetValues =>
        let _needFeatures := needFeaturesCalc st.features st.target indexMap
        match targetValues.lenFirstAxis with
        | .error e => (.error e, st)
        | .ok nTarget =>
          match (if st.dynamicFeatures then dynFeatLen look st.features else .ok 0) with
          | .error e => (.error e, st)
          | .ok featLen =>
            let fv0 : FeatMat :=
              if st.dynamicFeatures then
                .mat3 (zeros3 nTarget featLen st.features.length)
              else
                .mat2 (zeros2 nTarget st.features.length)
            match trainFeatLoop nf look st.isDynamic st.features 0
                st.muAndSigmaFeatures fv0 with
            | (.error e, mus) => (.error e, { st with muAndSigmaFeatures := mus })
            | (.ok fv, mus) =>
              let fv2 :=
                if st.featureSelectionAlgo = some "RFE" then
                  applyMask fv (rfeSel fv targetValues)
                else fv
              (.ok ⟨fv2, targetValues⟩,
               { st with muAndSigmaFeatures := mus,
                         trainLog := st.trainLog ++ [(fv2, targetValues)],
                         amITrained := true })

/-- SupervisedLearning.train(tdict, indexMap): the non-dict type check of
    lines 241-242 followed by the body above. -/
def train (nf : PyArr → ℚ × ℚ) (rfeSel : FeatMat → NDA → List Bool)
    (st : SLState) (inp : PyInput) (indexMap : List (String × List String)) :
    Except PyErr TrainOut × SLState :=
  match inp with
  | .notADict ty =>
    (.error (.typeError ("In method \"train\", the training set needs to be provided through a dictionary. Type of the in-object is " ++ ty)), st)
  | .dict tdict => trainDict nf rfeSel st (dictGet tdict) indexMap

/-- Validation loop of evaluate (lines 363-369), iterating over the dict
    entries in order: every value is checked with isDynamic(); additionally,
    when dynamicFeatures is set, stepInFeatures accumulates the maximum of
    values[index].shape[-1]. -/
def evalValidateLoop (isDyn dynFeats : Bool) :
    List (String × PyArr) → Nat → Except PyErr Nat
  | [], acc => .ok acc
  | (name, v) :: rest, acc =>
    let resp := checkArrayConsistency v isDyn
    if resp.1 = false then
      .error (.ioError ("In evaluate request for feature " ++ name ++ ":" ++ resp.2))
    else if dynFeats then
      match v.shapeAttr with
      | .error e => .error e
      | .ok shp =>
        match shp.getLast? with
        | none => .error (.indexError "tuple index out of range")
        | some l => evalValidateLoop isDyn dynFeats rest (max acc l)
    else evalValidateLoop isDyn dynFeats rest acc

/-- Validation loop of confidence (lines 321-324): same checks and message as
    the evaluate loop, without the stepInFeatures bookkeeping. -/
def confValidateLoop (isDyn : Bool) : List (String × PyArr) → Except PyErr Unit
  | [] => .ok ()
  | (name, v) :: rest =>
    let resp := checkArrayConsistency v isDyn
    if resp.1 = false then
      .error (.ioError ("In evaluate request for feature " ++ name ++ ":" ++ resp.2))
    else confValidateLoop isDyn rest

/-- Expression values[0].size used to size the evaluation matrix: the first
    dict value in insertion order (IndexError on an empty dict). -/
def firstValueSize (edict : List (String × PyArr)) : Except PyErr Nat :=
  match edict.head? with
  | none => .error (.indexError "list index out of range")
  | some hd => hd.2.sizeAttr

/-- Feature loop of evaluate (lines 375-385): each declared feature is looked
    up, re-validated, the stored (center, scale) pair is read from
    muAndSigmaFeatures (a KeyError when absent, e.g. on a never-trained
    instance), and the normalized value is assigned to the feature column. -/
def evalFeatLoop (look : String → Option PyArr) (isDyn : Bool)
    (mus : List (String × (ℚ × ℚ))) :
    List String → Nat → FeatMat → Except PyErr FeatMat
  | [], _, fv => .ok fv
  | feat :: rest, cnt, fv =>
    match look feat with
    | none => .error (.ioError ("The feature sought " ++ feat ++
        " is not in the evaluate set"))
    | some v =>
      let resp := checkArrayConsistency v isDyn
      if resp.1 = false then
        .error (.ioError ("In training set for feature " ++ feat ++ ":" ++ resp.2))
      else
        match List.lookup feat mus with
        | none => .error (.keyError feat)
        | some musig =>
          match v.pyAffine musig.1 musig.2 with
          | .error e => .error e
          | .ok nrm =>
            match fv with
            | .mat2 m =>
              match setColNDA m cnt nrm with
              | .error e => .error e
              | .ok m2 => evalFeatLoop look isDyn mus rest (cnt + 1) (.mat2 m2)
            | .mat3 m =>
              match setSlab m cnt nrm with
              | .error e => .error e
              | .ok m2 => evalFeatLoop look isDyn mus rest (cnt + 1) (.mat3 m2)

/-- SupervisedLearning.evaluate(edict).  The method assigns no attribute of
    self, so the post-call state is the pre-call state; a successful result is
    the matrix handed to the abstract __evaluateLocal__ hook.  Note there is
    no check of amITrained anywhere on this path. -/
def evaluate (st : SLState) (inp : PyInput) : Except PyErr FeatMat × SLState :=
  (match inp with
   | .notADict ty =>
     .error (.ioError ("method \"evaluate\". The evaluate request/s need/s to be provided through a dictionary. Type of the in-object is " ++ ty))
   | .dict edict =>
     match evalValidateLoop st.isDynamic st.dynamicFeatures edict 0 with
     | .error e => .error e
     | .ok stepInFeatures =>
       match firstValueSize edict with
       | .error e => .error e
       | .ok n =>
         let fv0 : FeatMat :=
           if st.dynamicFeatures then
             .mat3 (zeros3 n stepInFeatures st.features.length)
           else
             .mat2 (zeros2 n st.features.length)
         evalFeatLoop (dictGet edict) st.isDynamic st.muAndSigmaFeatures
           st.features 0 fv0,
   st)

/-- Feature loop of confidence (lines 330-337): like the evaluate loop but the
    raw dict value is assigned with no normalization at all, and the
    assignment is always written featureValues[:, cnt]. -/
def confFeatLoop (look : String → Option PyArr) (isDyn : Bool) :
    List String → Nat → FeatMat → Except PyErr FeatMat
  | [], _, fv => .ok fv
  | feat :: rest, cnt, fv =>
    match look feat with
    | none => .error (.ioError ("The feature sought " ++ feat ++
        " is not in the evaluate set"))
    | some v =>
      let resp := checkArrayConsistency v isDyn
      if resp.1 = false then
        .error (.ioError ("In training set for feature " ++ feat ++ ":" ++ resp.2))
      else
        match fv with
        | .mat2 m =>
          match (match v with
                 | .nd1 xs => setCol m cnt xs
                 | .scalar q => .ok { m with data := m.data.map (fun (row : List ℚ) => row.set cnt q) }
                 | .pylist es =>
                   match allScalarVals es with
                   | some vs => setCol m cnt vs
                   | none => .error (.valueError "setting an array element with a sequence.")
                 | v => .error (.valueError ("could not broadcast input array from shape "
                     ++ shapeString v.asarray.shape ++ " into shape " ++ shapeString [m.rows]))) with
          | .error e => .error e
          | .ok m2 => confFeatLoop look isDyn rest (cnt + 1) (.mat2 m2)
        | .mat3 m =>
          match setMid m cnt v with
          | .error e => .error e
          | .ok m2 => confFeatLoop look isDyn rest (cnt + 1) (.mat3 m2)

/-- SupervisedLearning.confidence(edict).  Like evaluate, the method mutates
    nothing; a successful result is the matrix handed to the abstract
    __confidenceLocal__ hook.  In the dynamic-features branch the matrix is
    sized from self.featureShape[1] (after values[0].size, which Python
    evaluates first), an attribute that is never assigned in the class. -/
def confidence (st : SLState) (inp : PyInput) : Except PyErr FeatMat × SLState :=
  (match inp with
   | .notADict ty =>
     .error (.ioError ("method \"confidence\". The inquiring set needs to be provided through a dictionary. Type of the in-object is " ++ ty))
   | .dict edict =>
     match confValidateLoop st.isDynamic edict with
     | .error e => .error e
     | .ok _ =>
       match firstValueSize edict with
       | .error e => .error e
       | .ok n =>
         if st.dynamicFeatures then
           match st.featureShape with
           | none => .error (.attributeError "featureShape")
           | some shp =>
             match shp.get? 1 with
             | none => .error (.indexError "tuple index out of range")
             | some t =>
               confFeatLoop (dictGet edict) st.isDynamic st.features 0
                 (.mat3 (zeros3 n t st.features.length))
         else
           confFeatLoop (dictGet edict) st.isDynamic st.features 0
             (.mat2 (zeros2 n st.features.length)),
   st)

/-- SupervisedLearning.reset(): clears amITrained and delegates to the
    abstract __resetLocal__ hook; note the base class does not clear
    muAndSigmaFeatures. -/
def reset (st : SLState) : SLState := { st with amITrained := false }

/-- Configuration values handed to initializeFromDict, with one optional entry
    per key the method reads via inputDict.get. -/
structure RomInitDict where
  featuresEntry : Option (List String)
  targetEntry : Option (List String)
  featureSelectionAlgoEntry : Option String
  performPCAEntry : Option Bool
  verbosityEntry : Option String
  deriving Repr, DecidableEq

/-- Fields assigned by initializeFromDict. -/
structure DictInitResult where
  features : Option (List String)
  target : Option (List String)
  featureSelectionAlgo : Option String
  performPCA : Bool
  verbosity : Option String
  deriving Repr, DecidableEq

/-- SupervisedLearning.initializeFromDict(inputDict) (lines 172-182): plain
    field assignments from inputDict.get with the defaults of the source; the
    method performs no validation of any kind and cannot fail. -/
def initializeFromDict (d : RomInitDict) : DictInitResult :=
  { features := d.featuresEntry
  , target := d.targetEntry
  , featureSelectionAlgo := d.featureSelectionAlgoEntry
  , performPCA := d.performPCAEntry.getD false
  , verbosity := d.verbosityEntry }

/-- Duplicate-name check of _handleInput (lines 167-169): dups is the
    intersection of the target and feature name sets; when non-empty the
    method raises a fatal error naming the duplicates.  Python iterates the
    set in unspecified order; the model uses first-occurrence order over the
    targets. -/
def handleInputDupCheck (features target : List String) : Except PyErr Unit :=
  let dups := (target.filter (fun t => t ∈ features)).dedup
  if dups.length ≠ 0 then
    .error (.ioError ("The target(s) \"" ++ String.intercalate ", " dups ++
      "\" is/are also among the given features!"))
  else .ok ()

/-- State transformer used to express what confidence actually builds: the
    same instance with every declared feature given the identity normalization
    pair (center 0, scale 1), under which (x - center) / scale is x itself. -/
def identNorm (st : SLState) : SLState :=
  { st with muAndSigmaFeatures := st.features.map (fun f => (f, ((0 : ℚ), (1 : ℚ)))) }

/-! Concrete fixtures used by witnesses and counterexamples. -/

/-- Normalization-factor stand-in returning center 3, scale 2: the pair the
    spec normalization (mean, population standard deviation) yields on the
    column [1, 5]. -/
def exNf : PyArr → ℚ × ℚ := fun _ => (3, 2)

/-- Normalization-factor stand-in with identity parameters. -/
def exNfZero : PyArr → ℚ × ℚ := fun _ => (0, 1)

/-- Feature selector stand-in (never invoked on states whose
    featureSelectionAlgo is none). -/
def exRfe : FeatMat → NDA → List Bool := fun _ _ => []

/-- Freshly configured static instance with one feature and one target. -/
def exStatic : SLState :=
  ⟨["x"], ["y"], false, false, false, [], none, none, []⟩

/-- Training dictionary for the static instance. -/
def exTd : List (String × PyArr) := [("x", .nd1 [1, 5]), ("y", .nd1 [10, 20])]

/-- State after a successful static training call (stored normalization pair
    (3, 2) for feature x). -/
def exTrained : SLState := (train exNf exRfe exStatic (.dict exTd) []).2

/-- Evaluation dictionary for the static instance. -/
def exEd : List (String × PyArr) := [("x", .nd1 [5, 7])]

/-- Freshly configured dynamic instance with two features and one target. -/
def exDyn : SLState :=
  ⟨["a", "b"], ["y"], false, true, true, [], none, none, []⟩

/-- Dynamic training dictionary whose realizations have differing lengths
    across the two features (2 for a, 3 for b). -/
def exTdRagged : List (String × PyArr) :=
  [("a", .pylist [.nd1 [1, 2], .nd1 [3, 4]]),
   ("b", .pylist [.nd1 [1, 2, 3], .nd1 [4, 5, 6]]),
   ("y", .pylist [.nd1 [0, 0], .nd1 [0, 0]])]

/-- Dynamic training dictionary with uniform realization length 2. -/
def exTdUniform : List (String × PyArr) :=
  [("a", .pylist [.nd1 [1, 2], .nd1 [3, 4]]),
   ("b", .pylist [.nd1 [5, 6], .nd1 [7, 8]]),
   ("y", .pylist [.nd1 [0, 0], .nd1 [0, 0]])]

/-- Dynamic training dictionary lacking the declared feature b. -/
def exTdMissingB : List (String × PyArr) :=
  [("a", .pylist [.nd1 [1, 2], .nd1 [3, 4]]),
   ("y", .pylist [.nd1 [0, 0], .nd1 [0, 0]])]

/-! Preservation lemmas for the matrix assignment operations. -/

theorem setCol_rows {m m2 : Mat2} {c : Nat} {col : List ℚ}
    (h : setCol m c col = .ok m2) : m2.rows = m.rows ∧ m2.cols = m.cols := by
  unfold setCol at h
  split at h
  · cases h; exact ⟨rfl, rfl⟩
  · split at h
    · cases h; exact ⟨rfl, rfl⟩
    · cases h

theorem setColNDA_rows {m m2 : Mat2} {c : Nat} {v : NDA}
    (h : setColNDA m c v = .ok m2) : m2.rows = m.rows ∧ m2.cols = m.cols := by
  unfold setColNDA at h
  cases v with
  | d0 q => cases h; exact ⟨rfl, rfl⟩
  | d1 xs => exact setCol_rows h
  | d2 x => cases h
  | d3 x => cases h
  | obj1 n => cases h
  | obj0 => cases h

theorem setSlab_dims {m m2 : Mat3} {k : Nat} {v : NDA}
    (h : setSlab m k v = .ok m2) :
    m2.dim0 = m.dim0 ∧ m2.dim1 = m.dim1 ∧ m2.dim2 = m.dim2 := by
  unfold setSlab at h
  cases hb : broadcastGet2 v m.dim0 m.dim1 with
  | error e => rw [hb] at h; cases h
  | ok f => rw [hb] at h; cases h; exact ⟨rfl, rfl, rfl⟩

/-! Lookup lemmas. -/

theorem lookup_mem {α β} [DecidableEq α] {l : List (α × β)} {k : α} {v : β}
    (h : List.lookup k l = some v) : (k, v) ∈ l := by
  induction l with
  | nil => cases h
  | cons p rest ih =>
    rw [List.lookup_cons] at h
    split at h
    · rename_i hk
      cases h
      have hkp : k = p.1 := by simpa using hk
      rw [hkp, Prod.mk.eta]
      exact List.mem_cons_self p rest
    · exact List.mem_cons_of_mem _ (ih h)

theorem lookup_cons_pair {α β} [BEq α] (p : α × β) (es : List (α × β)) (a : α) :
    List.lookup a (p :: es) = if a == p.1 then some p.2 else List.lookup a es := by
  obtain ⟨k, v⟩ := p
  rw [List.lookup_cons]
  cases h : a == k <;> simp [h]

/-- Association-list lookup is invariant under permutation of the bindings as
    long as the keys are pairwise distinct (as they are for a Python dict). -/
theorem lookup_perm {α β} [DecidableEq α] {l₁ l₂ : List (α × β)}
    (p : l₁.Perm l₂) : (l₁.map Prod.fst).Nodup →
    ∀ k, List.lookup k l₁ = List.lookup k l₂ := by
  induction p with
  | nil => intro _ k; rfl
  | cons x _ ih =>
    intro nd k
    rw [List.map_cons, List.nodup_cons] at nd
    rw [lookup_cons_pair, lookup_cons_pair]
    split
    · rfl
    · exact ih nd.2 k
  | swap x y l =>
    intro nd k
    rw [List.map_cons, List.map_cons, List.nodup_cons, List.nodup_cons] at nd
    have hxy : x.1 ≠ y.1 := by
      intro hcon
      exact nd.1 (hcon ▸ List.mem_cons_self _ _)
    simp only [lookup_cons_pair]
    rcases eq_or_ne k y.1 with hy | hy
    · have hky : (k == y.1) = true := beq_iff_eq.mpr hy
      have hkx : (k == x.1) = false :=
        beq_eq_false_iff_ne.mpr (by rw [hy]; exact fun h => hxy h.symm)
      simp [hky, hkx]
    · simp [beq_eq_false_iff_ne.mpr hy]
  | trans p₁ p₂ ih₁ ih₂ =>
    intro nd k
    have nd₂ := ((p₁.map Prod.fst).nodup_iff).mp nd
    exact (ih₁ nd k).trans (ih₂ nd₂ k)

/-! Helper lemmas for the Array Validator claims. -/

theorem staticValid_eq (a : PyArr) :
    (checkArrayConsistencyStatic a).1 = specStaticValid a := by
  cases a with
  | npNone => rfl
  | pylist es => rfl
  | nd1 xs => rfl
  | nd2 rs => rfl
  | scalar v => rfl
  | other t =>
    by_cases hc : t = "ndarray" ∨ t = "c1darray"
    · simp only [checkArrayConsistencyStatic, specStaticValid, PyArr.pyTypeName,
        PyArr.asarray, NDA.shape, if_pos hc]
      rcases hc with hc | hc <;> simp [hc]
    · push_neg at hc
      simp [checkArrayConsistencyStatic, specStaticValid, PyArr.pyTypeName,
        PyArr.asarray, NDA.shape, hc.1, hc.2]

theorem checkElemLoop_all (es : List PyArr) :
    ∀ cnt, (checkElemLoop es cnt).1 = es.all specStaticValid := by
  induction es with
  | nil => intro _; rfl
  | cons e rest ih =>
    intro cnt
    rw [List.all_cons, ← staticValid_eq e]
    unfold checkElemLoop
    cases h : (checkArrayConsistencyStatic e).1 with
    | true => simpa [h] using ih (cnt + 1)
    | false => simp [h]

theorem checkElemLoop_firstFail :
    ∀ (pre : List PyArr) (cnt : Nat) (e : PyArr) (post : List PyArr),
    pre.all specStaticValid = true → specStaticValid e = false →
    checkElemLoop (pre ++ e :: post) cnt =
      (false, " The element number " ++ toString (cnt + pre.length) ++
        " is not a consistent array. Error: " ++ (checkArrayConsistencyStatic e).2) := by
  intro pre
  induction pre with
  | nil =>
    intro cnt e post _ hbad
    have he : (checkArrayConsistencyStatic e).1 = false := by
      rw [staticValid_eq]; exact hbad
    unfold checkElemLoop
    simp [he]
  | cons p rest ih =>
    intro cnt e post hall hbad
    rw [List.all_cons, Bool.and_eq_true] at hall
    have hp : (checkArrayConsistencyStatic p).1 = true := by
      rw [staticValid_eq]; exact hall.1
    have harith : cnt + 1 + rest.length = cnt + (rest.length + 1) := by omega
    rw [List.cons_append]
    unfold checkElemLoop
    simp only [hp, if_true]
    rw [ih (cnt + 1) e post hall.2 hbad, List.length_cons, harith]

/-- Claim C9 (amended): checkArrayConsistency decides validity per the actual
    contract of the source: an absent (None) value is invalid with the
    no-entries message; when dynamic is true a list value is valid exactly
    when every element is a valid static 1-d array, with the first failure
    reported under its index, while a non-list value is validated exactly as
    in static mode (so a single 1-d numeric array is accepted even in dynamic
    mode); when dynamic is false a list value is invalid and a non-array type
    or an array of more than one dimension is invalid. -/
theorem claim9_array_validator_contract :
    (∀ a dyn, (checkArrayConsistency a dyn).1 = specArrayValid a dyn) ∧
    (∀ dyn, checkArrayConsistency .npNone dyn
        = (false, " The object is None, and contains no entries!")) ∧
    (∀ es, checkArrayConsistency (.pylist es) false
        = (false, " The list type is allowed for dynamic ROMs only")) ∧
    (∀ pre e post, pre.all specStaticValid = true → specStaticValid e = false →
      checkArrayConsistency (.pylist (pre ++ e :: post)) true
        = (false, " The element number " ++ toString pre.length ++
            " is not a consistent array. Error: " ++
            (checkArrayConsistencyStatic e).2)) := by
  refine ⟨?_, fun _ => rfl, fun _ => rfl, ?_⟩
  · intro a dyn
    cases a with
    | npNone => rfl
    | pylist es =>
      cases dyn with
      | true =>
        show (checkElemLoop es 0).1 = _
        rw [checkElemLoop_all es 0]; rfl
      | false => rfl
    | nd1 xs => exact staticValid_eq _
    | nd2 rs => exact staticValid_eq _
    | scalar v => exact staticValid_eq _
    | other t => exact staticValid_eq _
  · intro pre e post h1 h2
    have := checkElemLoop_firstFail pre 0 e post h1 h2
    simpa [checkArrayConsistency] using this

/-- Claim C9, counterexample to the claim as stated: in dynamic mode the
    validator accepts a bare 1-d numpy array, although the claimed contract
    requires the value to be a sequence of arrays (and hence this value to be
    invalid). -/
theorem claim9_counterexample :
    checkArrayConsistency (.nd1 [1, 2, 3]) true = (true, "") := rfl

/-- Witness for claim C9: the hypotheses of the first-failure clause hold for
    a concrete list whose second element is None. -/
theorem claim9_witness :
    ([PyArr.nd1 [1]] : List PyArr).all specStaticValid = true ∧
    specStaticValid .npNone = false ∧
    checkArrayConsistency (.pylist ([PyArr.nd1 [1]] ++ .npNone :: [])) true
      = (false, " The element number " ++ toString ([PyArr.nd1 [1]] : List PyArr).length ++
          " is not a consistent array. Error: " ++
          (checkArrayConsistencyStatic .npNone).2) :=
  ⟨rfl, rfl, claim9_array_validator_contract.2.2.2 [PyArr.nd1 [1]] .npNone [] rfl rfl⟩

/-- Claim C3: whenever train fails, with any of its error exits (non-mapping
    input, missing target, stacking failure, missing feature, array-validation
    failure, row-count mismatch, assignment failure), the abstract _train hook
    has not been invoked (the trainLog is unchanged) and amITrained keeps its
    pre-call value. -/
theorem claim3_train_failure_frame (nf : PyArr → ℚ × ℚ)
    (rfeSel : FeatMat → NDA → List Bool) (st : SLState) (inp : PyInput)
    (indexMap : List (String × List String)) (e : PyErr) (st2 : SLState)
    (h : train nf rfeSel st inp indexMap = (.error e, st2)) :
    st2.amITrained = st.amITrained ∧ st2.trainLog = st.trainLog := by
  cases inp with
  | notADict ty =>
    unfold train at h
    rw [Prod.mk.injEq] at h
    rw [← h.2]
    exact ⟨rfl, rfl⟩
  | dict tdict =>
    have h' : trainDict nf rfeSel st (dictGet tdict) indexMap = (.error e, st2) := h
    simp only [trainDict] at h'
    repeat' split at h'
    all_goals (
      rw [Prod.mk.injEq] at h'
      obtain ⟨h1, h2⟩ := h'
      first
        | (rw [← h2]; exact ⟨rfl, rfl⟩)
        | cases h1)

/-- Witness for claim C3: training with a missing target fails and leaves the
    fresh state untrained with an empty log. -/
theorem claim3_witness :
    (train exNf exRfe exStatic (.dict [("x", .nd1 [1, 5])]) []).1
      = .error (.ioError "The target y is not in the training set") ∧
    ((train exNf exRfe exStatic (.dict [("x", .nd1 [1, 5])]) []).2.amITrained
        = exStatic.amITrained ∧
      (train exNf exRfe exStatic (.dict [("x", .nd1 [1, 5])]) []).2.trainLog
        = exStatic.trainLog) :=
  ⟨rfl, claim3_train_failure_frame exNf exRfe exStatic
    (.dict [("x", .nd1 [1, 5])]) [] _ _ rfl⟩

/-- Claim C5: evaluate mutates no instance attribute, so any number of
    evaluate calls on a trained instance leaves muAndSigmaFeatures (indeed the
    whole state) unchanged, and a further evaluation behaves exactly as on the
    state produced by the most recent train call. -/
theorem claim5_evaluate_preserves_normalization (st : SLState)
    (htr : st.amITrained = true) (edicts : List PyInput) (e : PyInput) :
    ((edicts.foldl (fun s d => (evaluate s d).2) st).muAndSigmaFeatures
      = st.muAndSigmaFeatures) ∧
    ((evaluate (edicts.foldl (fun s d => (evaluate s d).2) st) e).1
      = (evaluate st e).1) := by
  have hfold : edicts.foldl (fun s d => (evaluate s d).2) st = st := by
    induction edicts with
    | nil => rfl
    | cons d ds ih => exact ih
  rw [hfold]
  exact ⟨rfl, rfl⟩

/-- Witness for claim C5 at a concrete trained state and two prior
    evaluations. -/
theorem claim5_witness :
    exTrained.amITrained = true ∧
    ((([PyInput.dict exEd, PyInput.dict exEd]).foldl
        (fun s d => (evaluate s d).2) exTrained).muAndSigmaFeatures
      = exTrained.muAndSigmaFeatures) ∧
    ((evaluate (([PyInput.dict exEd, PyInput.dict exEd]).foldl
        (fun s d => (evaluate s d).2) exTrained) (.dict exEd)).1
      = (evaluate exTrained (.dict exEd)).1) :=
  ⟨rfl, claim5_evaluate_preserves_normalization exTrained rfl
    [PyInput.dict exEd, PyInput.dict exEd] (.dict exEd)⟩

/-- Claim C7: train reads the training dict only through key lookup, so two
    dicts binding the same names to the same arrays in different orders give
    identical results (same feature matrix, same stacked targets, same
    post-call state, hence the same backend training outcome). -/
theorem claim7_train_key_order_invariance (nf : PyArr → ℚ × ℚ)
    (rfeSel : FeatMat → NDA → List Bool) (st : SLState)
    (d₁ d₂ : List (String × PyArr)) (indexMap : List (String × List String))
    (hperm : d₁.Perm d₂) (hnd : (d₁.map Prod.fst).Nodup) :
    train nf rfeSel st (.dict d₁) indexMap
      = train nf rfeSel st (.dict d₂) indexMap := by
  have hl : dictGet d₁ = dictGet d₂ :=
    funext (fun k => lookup_perm hperm hnd k)
  calc train nf rfeSel st (.dict d₁) indexMap
      = trainDict nf rfeSel st (dictGet d₁) indexMap := rfl
    _ = trainDict nf rfeSel st (dictGet d₂) indexMap := by rw [hl]
    _ = train nf rfeSel st (.dict d₂) indexMap := rfl

/-- Witness for claim C7: swapping the two entries of a concrete training
    dict gives the same training result. -/
theorem claim7_witness :
    train exNf exRfe exStatic
        (.dict [("x", .nd1 [1, 5]), ("y", .nd1 [10, 20])]) []
      = train exNf exRfe exStatic
        (.dict [("y", .nd1 [10, 20]), ("x", .nd1 [1, 5])]) [] :=
  claim7_train_key_order_invariance exNf exRfe exStatic _ _ []
    (List.Perm.swap ("y", PyArr.nd1 [10, 20]) ("x", PyArr.nd1 [1, 5]) [])
    (by decide)

/-- Claim C8 (amended): the duplicate-name invariant is enforced only on the
    parameter-input path: _handleInput raises a fatal configuration error as
    soon as some name is in both lists, while dictionary-based initialization
    performs no such check (see the counterexample). -/
theorem claim8_duplicate_names (features target : List String) (f : String)
    (hf : f ∈ features) (ht : f ∈ target) :
    ∃ msg, handleInputDupCheck features target = .error (.ioError msg) := by
  unfold handleInputDupCheck
  have hmem : f ∈ (target.filter (fun t => t ∈ features)).dedup := by
    rw [List.mem_dedup, List.mem_filter]
    exact ⟨ht, by simpa using hf⟩
  have hne : ((target.filter (fun t => t ∈ features)).dedup).length ≠ 0 := by
    intro hlen
    rw [List.length_eq_zero] at hlen
    rw [hlen] at hmem
    cases hmem
  rw [if_pos hne]
  exact ⟨_, rfl⟩

/-- Witness for claim C8: a concrete duplicated name makes the _handleInput
    check fail. -/
theorem claim8_witness :
    "a" ∈ ["a", "b"] ∧ "a" ∈ ["a"] ∧
    ∃ msg, handleInputDupCheck ["a", "b"] ["a"] = .error (.ioError msg) :=
  ⟨by decide, by decide, claim8_duplicate_names ["a", "b"] ["a"] "a"
    (by decide) (by decide)⟩

/-- Claim C8, counterexample to the claim as stated: initializeFromDict
    accepts a configuration whose single name appears in both Features and
    Target; the method has no failure mode at all (its result type carries no
    error), so no fatal configuration error is raised on the dictionary-based
    initialization path. -/
theorem claim8_counterexample :
    initializeFromDict ⟨some ["a"], some ["a"], none, none, none⟩
      = ⟨some ["a"], some ["a"], none, false, none⟩ := rfl

/-- Claim C10: on an instance with dynamic feature handling, once the inquiry
    dict has passed validation and values[0].size has been read, confidence
    raises an AttributeError for featureShape (the attribute __init__ never
    sets and no method of the class assigns), so the abstract
    __confidenceLocal__ hook is never reached, and the state is untouched. -/
theorem claim10_confidence_featureShape (st : SLState)
    (edict : List (String × PyArr)) (n : Nat)
    (hdyn : st.dynamicFeatures = true) (hshape : st.featureShape = none)
    (hval : confValidateLoop st.isDynamic edict = .ok ())
    (hsize : firstValueSize edict = .ok n) :
    (confidence st (.dict edict)).1 = .error (.attributeError "featureShape")
      ∧ (confidence st (.dict edict)).2 = st := by
  constructor
  · simp [confidence, hval, hsize, hdyn, hshape]
  · rfl

/-- Witness for claim C10 at a concrete dynamic instance: the dict passes
    validation (a bare 1-d array is valid in dynamic mode) and confidence
    still fails on featureShape. -/
theorem claim10_witness :
    exDyn.dynamicFeatures = true ∧ exDyn.featureShape = none ∧
    confValidateLoop exDyn.isDynamic [("a", PyArr.nd1 [1, 2])] = .ok () ∧
    firstValueSize [("a", PyArr.nd1 [1, 2])] = .ok 2 ∧
    (confidence exDyn (.dict [("a", PyArr.nd1 [1, 2])])).1
      = .error (.attributeError "featureShape") ∧
    (confidence exDyn (.dict [("a", PyArr.nd1 [1, 2])])).2 = exDyn :=
  ⟨rfl, rfl, rfl, rfl,
    (claim10_confidence_featureShape exDyn [("a", PyArr.nd1 [1, 2])] 2
      rfl rfl rfl rfl).1,
    (claim10_confidence_featureShape exDyn [("a", PyArr.nd1 [1, 2])] 2
      rfl rfl rfl rfl).2⟩

/-- Claim C1, counterexample to the claim as stated: a dynamic training set
    whose realizations have differing lengths across the two features (length
    2 for a, length 3 for b) makes train raise a broadcast error rather than
    zero-pad: the time axis was sized to 3 (the maximum of the two FIRST
    realizations), and the (2, 2) matrix of feature a cannot be assigned into
    the (2, 3) slab. -/
theorem claim1_counterexample :
    (train exNfZero exRfe exDyn (.dict exTdRagged) []).1
      = .error (.valueError
          "could not broadcast input array from shape (2, 2) into shape (2, 3)") := rfl

/-- Claim C2, counterexample to the claim as stated: on a trained static
    instance with stored normalization pair (3, 2) for feature x, confidence
    builds the raw matrix [[5], [7]] from the evaluation set x = [5, 7],
    whereas the train-style construction with the stored (x - center) / scale
    transform (exactly what evaluate performs) builds [[1], [2]]; confidence
    therefore does not apply the stored normalization. -/
theorem claim2_counterexample :
    exTrained.muAndSigmaFeatures = [("x", (3, 2))] ∧
    (confidence exTrained (.dict exEd)).1 = .ok (.mat2 ⟨2, 1, [[5], [7]]⟩) ∧
    (evaluate exTrained (.dict exEd)).1
      = .ok (.mat2 ⟨2, 1, [[(5 - 3) / 2], [(7 - 3) / 2]]⟩) ∧
    ((5 : ℚ) - 3) / 2 = 1 ∧ ((7 : ℚ) - 3) / 2 = 2 ∧
    (FeatMat.mat2 ⟨2, 1, [[5], [7]]⟩) ≠ (FeatMat.mat2 ⟨2, 1, [[1], [2]]⟩) :=
  ⟨rfl, rfl, rfl, by norm_num, by norm_num, by decide⟩

/-- Claim C4, counterexample to the claim as stated: reset clears amITrained
    but not muAndSigmaFeatures, and evaluate performs no trained-state check,
    so an untrained (just reset) instance is evaluated without any error: the
    call reaches the abstract backend hook with a normalized matrix instead of
    raising a usage error. -/
theorem claim4_counterexample :
    (reset exTrained).amITrained = false ∧
    (evaluate (reset exTrained) (.dict exEd)).1
      = .ok (.mat2 ⟨2, 1, [[(5 - 3) / 2], [(7 - 3) / 2]]⟩) :=
  ⟨rfl, rfl⟩

/-- Claim C6, counterexample to the claim as stated: in dynamic mode a
    missing feature (b) aborts train inside the feature-length loop with the
    interpreter ValueError of names.index, not with the data error of the
    dedicated missing-feature check; in particular the failure is not an
    IOError at all. -/
theorem claim6_counterexample :
    (train exNfZero exRfe exDyn (.dict exTdMissingB) []).1
      = .error (.valueError "b is not in list") ∧
    ∀ msg, (train exNfZero exRfe exDyn (.dict exTdMissingB) []).1
      ≠ .error (.ioError msg) := by
  constructor
  · rfl
  · intro msg h
    rw [show (train exNfZero exRfe exDyn (.dict exTdMissingB) []).1
      = .error (.valueError "b is not in list") from rfl] at h
    cases h

/-- Shape signature of a feature matrix: rank flag and the numpy shape. -/
def FeatMat.dimsSig : FeatMat → Bool × Nat × Nat × Nat
  | .mat2 m => (false, m.rows, m.cols, 0)
  | .mat3 m => (true, m.dim0, m.dim1, m.dim2)

/-- Assignment into a feature slab or column never changes the matrix shape
    (numpy assignment writes into the existing buffer). -/
theorem trainFeatAssign_dims {musig : ℚ × ℚ} {cnt : Nat} {v : PyArr}
    {fv fv2 : FeatMat} (h : trainFeatAssign musig cnt v fv = .ok fv2) :
    fv2.dimsSig = fv.dimsSig := by
  cases fv with
  | mat3 m =>
    unfold trainFeatAssign at h
    cases h1 : v.asarray.sliceAll2 with
    | error e => simp only [h1] at h; cases h
    | ok sliced =>
      simp only [h1] at h
      cases h2 : sliced.affine musig.1 musig.2 with
      | error e => simp only [h2] at h; cases h
      | ok nrm =>
        simp only [h2] at h
        cases h3 : setSlab m cnt nrm with
        | error e => simp only [h3] at h; cases h
        | ok m2 =>
          simp only [h3] at h
          cases h
          have hd := setSlab_dims h3
          simp [FeatMat.dimsSig, hd.1, hd.2.1, hd.2.2]
  | mat2 m =>
    unfold trainFeatAssign at h
    cases h1 : (if v.asarray.shape.length > 1 then v.asarray.colZero
                else .ok v.asarray) with
    | error e => simp only [h1] at h; cases h
    | ok extracted =>
      simp only [h1] at h
      cases h2 : extracted.affine musig.1 musig.2 with
      | error e => simp only [h2] at h; cases h
      | ok nrm =>
        simp only [h2] at h
        cases h3 : setColNDA m cnt nrm with
        | error e => simp only [h3] at h; cases h
        | ok m2 =>
          simp only [h3] at h
          cases h
          have hd := setColNDA_rows h3
          simp [FeatMat.dimsSig, hd.1, hd.2]

/-- The feature loop of train never changes the shape of the matrix it
    threads. -/
theorem trainFeatLoop_dims (nf : PyArr → ℚ × ℚ) (look : String → Option PyArr)
    (isDyn : Bool) :
    ∀ (feats : List String) (cnt : Nat) (mus : List (String × (ℚ × ℚ)))
      (fv fv2 : FeatMat) (mus2 : List (String × (ℚ × ℚ))),
    trainFeatLoop nf look isDyn feats cnt mus fv = (.ok fv2, mus2) →
    fv2.dimsSig = fv.dimsSig := by
  intro feats
  induction feats with
  | nil =>
    intro cnt mus fv fv2 mus2 h
    unfold trainFeatLoop at h
    rw [Prod.mk.injEq] at h
    rw [← Except.ok.inj h.1]
  | cons feat restf ih =>
    intro cnt mus fv fv2 mus2 h
    unfold trainFeatLoop at h
    cases hlook : look feat with
    | none => simp only [hlook] at h; simp at h
    | some v =>
      simp only [hlook] at h
      cases hchk : trainFeatCheck isDyn feat v fv with
      | some e => simp only [hchk] at h; simp at h
      | none =>
        simp only [hchk] at h
        cases hass : trainFeatAssign (nf v) cnt v fv with
        | error e => simp only [hass] at h; simp at h
        | ok fvn =>
          simp only [hass] at h
          exact (ih _ _ _ _ _ h).trans (trainFeatAssign_dims hass)

/-- Claim C1 (amended): in dynamic mode, whenever train succeeds the feature
    matrix handed to the backend is 3-d and its time axis equals the value of
    the feature-length loop, i.e. the maximum across features of the size of
    each feature's FIRST realization (values[names.index(feat)][0].size) —
    not the maximum across all realizations; and (see the counterexample)
    training sets whose realizations have differing lengths are not
    zero-padded but make train raise an error. -/
theorem claim1_dynamic_time_axis (nf : PyArr → ℚ × ℚ)
    (rfeSel : FeatMat → NDA → List Bool) (st : SLState)
    (tdict : List (String × PyArr)) (indexMap : List (String × List String))
    (out : TrainOut) (st2 : SLState)
    (hdyn : st.dynamicFeatures = true)
    (h : train nf rfeSel st (.dict tdict) indexMap = (.ok out, st2)) :
    ∃ m : Mat3, out.featureValues = .mat3 m ∧
      dynFeatLen (dictGet tdict) st.features = .ok m.dim1 := by
  have h' : trainDict nf rfeSel st (dictGet tdict) indexMap = (.ok out, st2) := h
  simp only [trainDict, hdyn, reduceIte] at h'
  cases hres : resolveTargets (dictGet tdict) st.target with
  | error e => simp only [hres] at h'; simp at h'
  | ok tl =>
    simp only [hres] at h'
    cases hstack : npStackLast tl with
    | error e => simp only [hstack] at h'; simp at h'
    | ok tv =>
      simp only [hstack] at h'
      cases hlen : tv.lenFirstAxis with
      | error e => simp only [hlen] at h'; simp at h'
      | ok S =>
        simp only [hlen] at h'
        cases hfl : dynFeatLen (dictGet tdict) st.features with
        | error e => simp only [hfl] at h'; simp at h'
        | ok L =>
          simp only [hfl] at h'
          cases hloop : trainFeatLoop nf (dictGet tdict) st.isDynamic
              st.features 0 st.muAndSigmaFeatures
              (.mat3 (zeros3 S L st.features.length)) with
          | mk r mus =>
            cases r with
            | error e => simp only [hloop] at h'; simp at h'
            | ok fv =>
              simp only [hloop] at h'
              have hdims := trainFeatLoop_dims nf (dictGet tdict) st.isDynamic
                st.features 0 st.muAndSigmaFeatures _ fv mus hloop
              rw [Prod.mk.injEq] at h'
              have hout := Except.ok.inj h'.1
              cases fv with
              | mat2 m => simp [FeatMat.dimsSig, zeros3] at hdims
              | mat3 m =>
                have hm1 : m.dim1 = L := by
                  simp [FeatMat.dimsSig, zeros3] at hdims
                  exact hdims.2.1
                by_cases hRFE : st.featureSelectionAlgo = some "RFE"
                · refine ⟨⟨m.dim0, m.dim1, maskCount (rfeSel (.mat3 m) tv),
                    (m.data.map (fun plane => plane.map (fun row =>
                      filterByMask row (rfeSel (.mat3 m) tv))))⟩, ?_, ?_⟩
                  · rw [← hout]
                    simp [hRFE, applyMask]
                  · simp [hm1]
                · refine ⟨m, ?_, ?_⟩
                  · rw [← hout]
                    simp [hRFE]
                  · simp [hm1]

/-- Witness for claim C1 at a concrete dynamic instance with uniform
    realization length 2 for both features: training succeeds, the matrix is
    3-d and its time axis is the computed feature length 2. -/
theorem claim1_witness :
    ∃ (out : TrainOut) (st2 : SLState) (m : Mat3),
      train exNfZero exRfe exDyn (.dict exTdUniform) [] = (.ok out, st2) ∧
      out.featureValues = .mat3 m ∧
      dynFeatLen (dictGet exTdUniform) exDyn.features = .ok m.dim1 ∧
      m.dim1 = 2 := by
  have hok : (train exNfZero exRfe exDyn (.dict exTdUniform) []).1.isOk = true := rfl
  cases hp : train exNfZero exRfe exDyn (.dict exTdUniform) [] with
  | mk r s2 =>
    cases r with
    | error e =>
      rw [hp] at hok
      exact Bool.noConfusion hok
    | ok out =>
      obtain ⟨m, h1, h2⟩ :=
        claim1_dynamic_time_axis exNfZero exRfe exDyn exTdUniform [] out s2 rfl hp
      have hfl2 : dynFeatLen (dictGet exTdUniform) exDyn.features = .ok 2 := rfl
      have hm : m.dim1 = 2 := by
        rw [hfl2] at h2
        exact (Except.ok.inj h2).symm
      exact ⟨out, s2, m, rfl, h1, h2, hm⟩

/-- Claim C4 (amended): evaluate performs no explicit trained-state check.
    On an untrained instance whose normalization store is empty (as after
    construction) the call does fail before the backend hook, but with a
    KeyError on the first declared feature's stored normalization parameters,
    not with a deliberate usage error; and an untrained instance that kept
    stored parameters (e.g. after reset) is evaluated with no error at all
    (see the counterexample). -/
theorem claim4_untrained_evaluate_keyerror (st : SLState)
    (edict : List (String × PyArr)) (f : String) (rest : List String)
    (v : PyArr) (k n : Nat)
    (huntrained : st.amITrained = false)
    (hfeat : st.features = f :: rest)
    (hmus : st.muAndSigmaFeatures = [])
    (hval : evalValidateLoop st.isDynamic st.dynamicFeatures edict 0 = .ok k)
    (hsize : firstValueSize edict = .ok n)
    (hlook : dictGet edict f = some v)
    (hchk : (checkArrayConsistency v st.isDynamic).1 = true) :
    (evaluate st (.dict edict)).1 = .error (.keyError f) := by
  simp only [evaluate, hval, hsize, hfeat, hmus]
  simp only [evalFeatLoop, hlook, hchk]
  simp

/-- Witness for claim C4 at a freshly constructed static instance: evaluate
    on a well-formed request fails with the KeyError on feature x. -/
theorem claim4_witness :
    exStatic.amITrained = false ∧ exStatic.muAndSigmaFeatures = [] ∧
    (evaluate exStatic (.dict exEd)).1 = .error (.keyError "x") :=
  ⟨rfl, rfl,
    claim4_untrained_evaluate_keyerror exStatic exEd "x" [] (.nd1 [5, 7]) 0 2
      rfl rfl rfl rfl rfl rfl rfl⟩

/-- A 1-d numpy array passes checkArrayConsistency in both modes. -/
theorem nd1_check (xs : List ℚ) (b : Bool) :
    (checkArrayConsistency (.nd1 xs) b).1 = true := by
  cases b <;> rfl

/-- A well-formed 1-d feature column of matching length passes the per-feature
    checks of the train loop. -/
theorem trainFeatCheck_nd1 (isDyn : Bool) (g : String) (xs : List ℚ)
    (m : Mat2) (hlen : xs.length = m.rows) :
    trainFeatCheck isDyn g (.nd1 xs) (.mat2 m) = none := by
  unfold trainFeatCheck
  simp [nd1_check, PyArr.asarray, NDA.lenFirstAxis, NDA.shape,
    FeatMat.rowCount, hlen]

/-- The assignment step succeeds on a well-formed 1-d feature column of
    matching length, preserving the row count. -/
theorem trainFeatAssign_nd1 (musig : ℚ × ℚ) (cnt : Nat) (xs : List ℚ)
    (m : Mat2) (hlen : xs.length = m.rows) :
    ∃ m2 : Mat2, trainFeatAssign musig cnt (.nd1 xs) (.mat2 m) = .ok (.mat2 m2)
      ∧ m2.rows = m.rows := by
  refine ⟨⟨m.rows, m.cols, (m.data.zip (xs.map (fun q => (q - musig.1) / musig.2))).map (fun p => p.1.set cnt p.2)⟩, ?_, rfl⟩
  unfold trainFeatAssign
  simp only [PyArr.asarray, NDA.shape, List.length_singleton]
  rw [if_neg (by omega)]
  simp only [NDA.affine]
  unfold setColNDA setCol
  simp [List.length_map, hlen]

/-- When the train feature loop reaches a missing feature after a prefix of
    well-formed present features (in static mode), it fails with the data
    error naming that feature. -/
theorem trainFeatLoop_missing_static (nf : PyArr → ℚ × ℚ)
    (look : String → Option PyArr) (isDyn : Bool) :
    ∀ (pre : List String) (f : String) (rest : List String) (cnt : Nat)
      (mus : List (String × (ℚ × ℚ))) (m : Mat2),
    (∀ g ∈ pre, ∃ xs : List ℚ, look g = some (.nd1 xs) ∧ xs.length = m.rows) →
    look f = none →
    (trainFeatLoop nf look isDyn (pre ++ f :: rest) cnt mus (.mat2 m)).1
      = .error (.ioError ("The feature sought " ++ f ++
          " is not in the training set")) := by
  intro pre
  induction pre with
  | nil =>
    intro f rest cnt mus m _ hf
    rw [List.nil_append]
    unfold trainFeatLoop
    simp [hf]
  | cons g pre ih =>
    intro f rest cnt mus m hpre hf
    obtain ⟨xs, hg, hxs⟩ := hpre g (List.mem_cons_self g pre)
    obtain ⟨m2, hass, hrows⟩ := trainFeatAssign_nd1 (nf (.nd1 xs)) cnt xs m hxs
    rw [List.cons_append]
    unfold trainFeatLoop
    simp only [hg, trainFeatCheck_nd1 isDyn g xs m hxs, hass]
    exact ih f rest (cnt + 1) (dictInsert mus g (nf (.nd1 xs))) m2
      (fun g' hg' => by
        obtain ⟨xs', h1, h2⟩ := hpre g' (List.mem_cons_of_mem g hg')
        exact ⟨xs', h1, by rw [h2, hrows]⟩)
      hf

/-- In dynamic mode, the feature-length loop fails on a missing feature with
    the interpreter ValueError of names.index, provided the preceding
    features computed a length. -/
theorem dynFeatLen_missing (look : String → Option PyArr) :
    ∀ (pre : List String) (f : String) (rest : List String),
    (∀ g ∈ pre, ∃ k, dynFeatOne look g = .ok k) → look f = none →
    dynFeatLen look (pre ++ f :: rest)
      = .error (.valueError (f ++ " is not in list")) := by
  intro pre
  induction pre with
  | nil =>
    intro f rest _ hf
    rw [List.nil_append]
    unfold dynFeatLen dynFeatOne
    simp [hf]
  | cons g pre ih =>
    intro f rest hpre hf
    obtain ⟨k, hk⟩ := hpre g (List.mem_cons_self g pre)
    rw [List.cons_append]
    unfold dynFeatLen
    simp only [hk,
      ih f rest (fun g' hg' => hpre g' (List.mem_cons_of_mem g hg')) hf]

/-- Claim C6 (amended): a missing declared feature is reported differently in
    the two modes.  In static mode, once the targets have resolved, train
    fails with the data error naming the first missing feature (all features
    before it being present well-formed columns of matching length).  In
    dynamic mode the failure happens already in the feature-length loop, as
    the interpreter ValueError of the names.index lookup, not as the
    dedicated data error. -/
theorem claim6_missing_feature_error :
    (∀ (nf : PyArr → ℚ × ℚ) (rfeSel : FeatMat → NDA → List Bool)
        (st : SLState) (tdict : List (String × PyArr))
        (indexMap : List (String × List String)) (pre : List String)
        (f : String) (rest : List String) (tl : List PyArr) (tv : NDA) (S : Nat),
      st.dynamicFeatures = false →
      st.features = pre ++ f :: rest →
      dictGet tdict f = none →
      resolveTargets (dictGet tdict) st.target = .ok tl →
      npStackLast tl = .ok tv →
      tv.lenFirstAxis = .ok S →
      (∀ g ∈ pre, ∃ xs : List ℚ, dictGet tdict g = some (.nd1 xs) ∧ xs.length = S) →
      (train nf rfeSel st (.dict tdict) indexMap).1
        = .error (.ioError ("The feature sought " ++ f ++
            " is not in the training set"))) ∧
    (∀ (nf : PyArr → ℚ × ℚ) (rfeSel : FeatMat → NDA → List Bool)
        (st : SLState) (tdict : List (String × PyArr))
        (indexMap : List (String × List String)) (pre : List String)
        (f : String) (rest : List String) (tl : List PyArr) (tv : NDA) (S : Nat),
      st.dynamicFeatures = true →
      st.features = pre ++ f :: rest →
      dictGet tdict f = none →
      resolveTargets (dictGet tdict) st.target = .ok tl →
      npStackLast tl = .ok tv →
      tv.lenFirstAxis = .ok S →
      (∀ g ∈ pre, ∃ k, dynFeatOne (dictGet tdict) g = .ok k) →
      (train nf rfeSel st (.dict tdict) indexMap).1
        = .error (.valueError (f ++ " is not in list"))) := by
  constructor
  · intro nf rfeSel st tdict indexMap pre f rest tl tv S
      hdf hfeat hf hres hstack hlen hpre
    show (trainDict nf rfeSel st (dictGet tdict) indexMap).1 = _
    simp only [trainDict, hres, hstack, hlen, hdf, Bool.false_eq_true, reduceIte]
    have hloop := trainFeatLoop_missing_static nf (dictGet tdict) st.isDynamic
      pre f rest 0 st.muAndSigmaFeatures (zeros2 S st.features.length)
      (fun g hg => hpre g hg) hf
    rw [← hfeat] at hloop
    cases hl2 : trainFeatLoop nf (dictGet tdict) st.isDynamic st.features 0
        st.muAndSigmaFeatures (.mat2 (zeros2 S st.features.length)) with
    | mk r mus2 =>
      rw [hl2] at hloop
      cases r with
      | error e => simpa using hloop
      | ok fv => exact absurd hloop (by simp)
  · intro nf rfeSel st tdict indexMap pre f rest tl tv S
      hdt hfeat hf hres hstack hlen hpre
    show (trainDict nf rfeSel st (dictGet tdict) indexMap).1 = _
    have hdl := dynFeatLen_missing (dictGet tdict) pre f rest hpre hf
    rw [← hfeat] at hdl
    simp only [trainDict, hdt, reduceIte, hres, hstack, hlen, hdl]

/-- Static instance declaring a second feature z that the training dict exTd
    does not bind. -/
def exStatic2 : SLState :=
  ⟨["x", "z"], ["y"], false, false, false, [], none, none, []⟩

/-- Witness for claim C6: in static mode the missing feature z is named by
    the data error; in dynamic mode the missing feature b surfaces as the
    interpreter ValueError. -/
theorem claim6_witness :
    (train exNf exRfe exStatic2 (.dict exTd) []).1
      = .error (.ioError "The feature sought z is not in the training set") ∧
    (train exNfZero exRfe exDyn (.dict exTdMissingB) []).1
      = .error (.valueError "b is not in list") := by
  constructor
  · exact claim6_missing_feature_error.1 exNf exRfe exStatic2 exTd [] ["x"] "z" []
      [.nd1 [10, 20]] (.d2 [[10], [20]]) 2 rfl rfl rfl rfl rfl rfl
      (by
        intro g hg
        rw [List.mem_singleton] at hg
        subst hg
        exact ⟨[1, 5], rfl, rfl⟩)
  · exact claim6_missing_feature_error.2 exNfZero exRfe exDyn exTdMissingB []
      ["a"] "b" [] [.pylist [.nd1 [0, 0], .nd1 [0, 0]]]
      (.d3 [[[0], [0]], [[0], [0]]]) 2 rfl rfl rfl rfl rfl rfl
      (by
        intro g hg
        rw [List.mem_singleton] at hg
        subst hg
        exact ⟨2, rfl⟩)

/-- True exactly for values of a foreign (non-numpy, non-list, non-None)
    type. -/
def PyArr.isForeign : PyArr → Bool
  | .other _ => true
  | _ => false

/-- With dynamicFeatures off, the validation loop of evaluate performs
    exactly the checks of the validation loop of confidence. -/
theorem evalValidate_as_conf (isDyn : Bool) :
    ∀ (l : List (String × PyArr)) (acc : Nat),
    evalValidateLoop isDyn false l acc
      = (confValidateLoop isDyn l).map (fun _ => acc) := by
  intro l
  induction l with
  | nil => intro acc; rfl
  | cons p rest ih =>
    intro acc
    obtain ⟨name, v⟩ := p
    unfold evalValidateLoop confValidateLoop
    cases hresp : (checkArrayConsistency v isDyn).1 with
    | false => simp [hresp, Except.map]
    | true => simp [hresp, ih acc]

/-- A value that passes the static array check and is not of a foreign type
    is a 1-d numpy array. -/
theorem staticValid_nd1 (v : PyArr)
    (hresp : (checkArrayConsistency v false).1 = true)
    (hfor : v.isForeign = false) : ∃ xs : List ℚ, v = .nd1 xs := by
  cases v with
  | nd1 xs => exact ⟨xs, rfl⟩
  | npNone => cases hresp
  | pylist es => cases hresp
  | nd2 rs => cases hresp
  | scalar q => cases hresp
  | other t => cases hfor

/-- With the identity pair (0, 1) stored for every feature, the feature loop
    of evaluate computes exactly the raw-value feature loop of confidence. -/
theorem confFeatLoop_eq (look : String → Option PyArr)
    (hlookGood : ∀ f v, look f = some v → v.isForeign = false)
    (mus : List (String × (ℚ × ℚ))) :
    ∀ (feats : List String),
    (∀ f ∈ feats, List.lookup f mus = some ((0 : ℚ), (1 : ℚ))) →
    ∀ (cnt : Nat) (m : Mat2),
    confFeatLoop look false feats cnt (.mat2 m)
      = evalFeatLoop look false mus feats cnt (.mat2 m) := by
  intro feats
  induction feats with
  | nil => intro _ cnt m; rfl
  | cons feat rest ih =>
    intro hmus cnt m
    unfold confFeatLoop evalFeatLoop
    cases hlook : look feat with
    | none => rfl
    | some v =>
      cases hresp : (checkArrayConsistency v false).1 with
      | false => simp [hresp]
      | true =>
        obtain ⟨xs, rfl⟩ := staticValid_nd1 v hresp (hlookGood feat v hlook)
        have hmf : List.lookup feat mus = some ((0 : ℚ), (1 : ℚ)) :=
          hmus feat (List.mem_cons_self feat rest)
        have hmap : xs.map (fun q => (q - 0) / 1) = xs := by simp
        simp only [hresp, Bool.true_eq_false, if_false, hmf,
          PyArr.pyAffine, hmap, setColNDA]
        cases hset : setCol m cnt xs with
        | error e => rfl
        | ok m2 =>
          exact ih (fun f hf => hmus f (List.mem_cons_of_mem feat hf)) (cnt + 1) m2

/-- Claim C2 (amended): on a fully static instance (dynamicFeatures and
    _dynamicHandling both off) and an evaluation dict free of foreign-typed
    values, confidence builds its feature matrix with the same feature column
    order as evaluate but WITHOUT applying the stored normalization: the call
    behaves exactly as evaluate would on the same instance with every stored
    (center, scale) pair replaced by the identity (0, 1).  In particular the
    stored muAndSigmaFeatures are never read by confidence.  (In dynamic mode
    confidence instead fails on featureShape, claim C10.) -/
theorem claim2_confidence_unnormalized (st : SLState)
    (edict : List (String × PyArr))
    (hdf : st.dynamicFeatures = false)
    (hdh : st.dynamicHandling = false)
    (hgen : ∀ p ∈ edict, p.2.isForeign = false) :
    (confidence st (.dict edict)).1 = (evaluate (identNorm st) (.dict edict)).1 := by
  have hlookGood : ∀ f v, dictGet edict f = some v → v.isForeign = false :=
    fun f v hfv => hgen (f, v) (lookup_mem hfv)
  have hisd : st.isDynamic = false := hdh
  simp only [confidence, evaluate, identNorm, SLState.isDynamic, hdf, hdh]
  rw [evalValidate_as_conf]
  cases hcv : confValidateLoop false edict with
  | error e => simp [Except.map]
  | ok u =>
    cases u
    simp only [Except.map]
    cases hfs : firstValueSize edict with
    | error e => rfl
    | ok n =>
      simp only [Bool.false_eq_true, if_false]
      exact confFeatLoop_eq (dictGet edict) hlookGood _ st.features
        (fun f hf => List.lookup_graph (fun _ => ((0 : ℚ), (1 : ℚ))) hf)
        0 (zeros2 n st.features.length)

/-- Witness for claim C2 at the concrete trained static instance: confidence
    coincides with evaluate under identity normalization on a concrete
    request. -/
theorem claim2_witness :
    (confidence exTrained (.dict exEd)).1
      = (evaluate (identNorm exTrained) (.dict exEd)).1 :=
  claim2_confidence_unnormalized exTrained exEd rfl rfl (by
    intro p hp
    rw [show exEd = [("x", PyArr.nd1 [5, 7])] from rfl] at hp
    rw [List.mem_singleton] at hp
    subst hp
    rfl)

end SL
